import Mathlib

/-!
Verification of the mcp-miro protocol bridge (src/src/MiroClient.ts): a shallow
embedding of the MiroClient HTTP wrapper and the MCP server's resource and tool
dispatch handlers, followed by theorems settling the specification claims.

JavaScript values flowing through the dispatcher are modelled by a small `Json`
inductive with an explicit `undef` constructor mirroring JavaScript `undefined`
(absent object fields and absent arguments).  The HTTP transport (the `undici`
`request` function) is modelled as an oracle `HttpRequest → HttpResponse`; each
operation additionally returns the list of HTTP requests it issued, so that
"no network call is made" is expressible.  A response whose `jsonBody` is
`none` models a body on which `body.json()` rejects (for example the empty body
of an HTTP 204 response).
-/

namespace McpMiro

/-- JavaScript/JSON values as handled by the dispatcher.  `undefined` is
JavaScript `undefined`; object fields are an association list in insertion
order, as produced by the object literals in the source. -/
inductive Json where
  | undefined : Json
  | null : Json
  | bool : Bool → Json
  | num : Int → Json
  | str : String → Json
  | arr : List Json → Json
  | obj : List (String × Json) → Json

/-- JavaScript truthiness, as used by `options.body ? ... : ...`,
`style || {}` and `if (parent)` in the source. -/
def Json.truthy : Json → Bool
  | .undefined => false
  | .null => false
  | .bool b => b
  | .num n => n != 0
  | .str s => s != ""
  | .arr _ => true
  | .obj _ => true

/-- `v || d` on JavaScript values (JS logical-or returns `d` when `v` is
falsy). -/
def jsOr (v d : Json) : Json := if v.truthy then v else d

/-- Destructuring default `const \x7b x = d \x7d = o`: the default applies only
when the value is `undefined` (unlike `||`, `null` does not trigger it). -/
def jsDflt (v d : Json) : Json :=
  match v with
  | .undefined => d
  | v => v

/-- `v || d` on an optional string, as in `options.method || 'GET'`. -/
def jsOrStr (v : Option String) (d : String) : String :=
  match v with
  | some s => if s = "" then d else s
  | none => d

/-- Property access `o.k`: `undefined` unless `o` is an object with field `k`
(first occurrence, mirroring a well-formed object literal). -/
def Json.getField : Json → String → Json
  | .obj fields, k => (fields.lookup k).getD .undefined
  | _, _ => .undefined

/-- `.length` of a JavaScript value: defined for arrays and strings,
`undefined` otherwise. -/
def Json.jsLength : Json → Json
  | .arr xs => .num xs.length
  | .str s => .num s.length
  | _ => .undefined

mutual
/-- String conversion of a value interpolated into a template literal
(JavaScript `String(v)`). -/
def jsTemplateStr : Json → String
  | .undefined => "undefined"
  | .null => "null"
  | .bool true => "true"
  | .bool false => "false"
  | .num n => toString n
  | .str s => s
  | .arr xs => jsTemplateList xs
  | .obj _ => "[object Object]"

/-- `Array.prototype.toString`: elements joined by commas, with `null` and
`undefined` elements rendered as empty strings. -/
def jsTemplateList : List Json → String
  | [] => ""
  | [x] =>
    match x with
    | .undefined => ""
    | .null => ""
    | v => jsTemplateStr v
  | x :: y :: rest =>
    (match x with
      | .undefined => ""
      | .null => ""
      | v => jsTemplateStr v) ++ "," ++ jsTemplateList (y :: rest)
end

/-- JSON string escaping used by `JSON.stringify` (the escapes relevant to
this development). -/
def jsonEscape (s : String) : String :=
  s.data.foldl (fun acc c =>
    acc ++ (if c = '"' then "\\\""
      else if c = '\\' then "\\\\"
      else if c = '\n' then "\\n"
      else if c = '\t' then "\\t"
      else if c = '\r' then "\\r"
      else String.singleton c)) ""

/-- `n` spaces of indentation. -/
def spaces (n : Nat) : String := String.mk (List.replicate n ' ')

mutual
/-- `JSON.stringify(v, null, 2)` rendered at indentation level `ind` (the
indentation of the value's closing bracket). -/
def stringifyAt : Nat → Json → String
  | _, .undefined => "undefined"
  | _, .null => "null"
  | _, .bool true => "true"
  | _, .bool false => "false"
  | _, .num n => toString n
  | _, .str s => "\"" ++ jsonEscape s ++ "\""
  | ind, .arr xs =>
    match itemStrings (ind + 2) xs with
    | [] => "[]"
    | ls => "[\n" ++ String.intercalate ",\n" ls ++ "\n" ++ spaces ind ++ "]"
  | ind, .obj fs =>
    match fieldStrings (ind + 2) fs with
    | [] => "\x7b\x7d"
    | ls => "\x7b\n" ++ String.intercalate ",\n" ls ++ "\n" ++ spaces ind ++ "\x7d"

/-- Rendered array elements (an `undefined` element becomes `null`, as in
`JSON.stringify`). -/
def itemStrings : Nat → List Json → List String
  | _, [] => []
  | ind, Json.undefined :: rest => (spaces ind ++ "null") :: itemStrings ind rest
  | ind, x :: rest => (spaces ind ++ stringifyAt ind x) :: itemStrings ind rest

/-- Rendered object fields (fields with `undefined` values are skipped, as in
`JSON.stringify`). -/
def fieldStrings : Nat → List (String × Json) → List String
  | _, [] => []
  | ind, (_, Json.undefined) :: rest => fieldStrings ind rest
  | ind, (k, v) :: rest =>
    (spaces ind ++ "\"" ++ jsonEscape k ++ "\": " ++ stringifyAt ind v) ::
      fieldStrings ind rest
end

/-- `JSON.stringify(v, null, 2)`. -/
def stringify2 (v : Json) : String := stringifyAt 0 v

/-! ## The HTTP transport model -/

/-- An HTTP request as issued through `undici`'s `request`.  The
`Authorization` and `Content-Type` headers attached by `fetchApi` are constant
for the process lifetime and are not modelled.  `body` holds the JavaScript
value whose `JSON.stringify` is sent, `none` when no body is sent. -/
structure HttpRequest where
  method : String
  url : String
  body : Option Json

/-- The part of an `undici` response the client reads: the status code and the
result of awaiting `body.json()`.  `jsonBody = none` models a body on which
`body.json()` rejects — in particular the empty body of an HTTP 204 response,
where `JSON.parse` fails. -/
structure HttpResponse where
  statusCode : Nat
  jsonBody : Option Json

/-- The remote service, as an oracle mapping each request to its response. -/
def HttpOracle : Type := HttpRequest → HttpResponse

/-- The error message of a rejected `body.json()` on an empty body. -/
def jsonParseError : String := "Unexpected end of JSON input"

/-- Base URL prefixed to every `fetchApi` path. -/
def apiBase : String := "https://api.miro.com/v2"

/-! ## MiroClient (src/src/MiroClient.ts lines 28-102) -/

/-- The request built by `MiroClient.fetchApi`: method defaults to GET via
`options.method || 'GET'`, and the body is sent only when `options.body` is
truthy (`options.body ? JSON.stringify(options.body) : undefined`). -/
def fetchRequest (path : String) (method : Option String) (body : Json) : HttpRequest :=
  { method := jsOrStr method "GET"
    url := apiBase ++ path
    body := if body.truthy then some body else none }

/-- How `fetchApi` turns the response into a value or a thrown error:
`body.json()` is awaited first (its rejection propagates), then any status
`>= 400` throws
`new Error('Miro API error: ' + statusCode + ' ' + (data?.message || ''))`,
and otherwise the decoded body is returned. -/
def fetchApiResult (resp : HttpResponse) : Except String Json :=
  match resp.jsonBody with
  | none => Except.error jsonParseError
  | some data =>
    if 400 ≤ resp.statusCode then
      Except.error ("Miro API error: " ++ toString resp.statusCode ++ " " ++
        jsTemplateStr (jsOr (data.getField "message") (Json.str "")))
    else Except.ok data

/-- `MiroClient.fetchApi`, returning the outcome together with the single
request it issued. -/
def fetchApi (http : HttpOracle) (path : String) (method : Option String)
    (body : Json) : Except String Json × List HttpRequest :=
  (fetchApiResult (http (fetchRequest path method body)), [fetchRequest path method body])

/-- `MiroClient.getBoards`: `fetchApi('/boards')`, then `response.data`. -/
def getBoards (http : HttpOracle) : Except String Json × List HttpRequest :=
  ((fetchApi http "/boards" none Json.undefined).1.map (fun r => r.getField "data"),
    (fetchApi http "/boards" none Json.undefined).2)

/-- `MiroClient.getBoardItems`: note the hard-coded `?limit=50` query and the
absence of any cursor parameter. -/
def getBoardItems (http : HttpOracle) (boardId : String) :
    Except String Json × List HttpRequest :=
  ((fetchApi http ("/boards/" ++ boardId ++ "/items?limit=50") none Json.undefined).1.map
      (fun r => r.getField "data"),
    (fetchApi http ("/boards/" ++ boardId ++ "/items?limit=50") none Json.undefined).2)

/-- `MiroClient.createStickyNote(boardId, data)`. -/
def createStickyNote (http : HttpOracle) (boardId : String) (data : Json) :
    Except String Json × List HttpRequest :=
  fetchApi http ("/boards/" ++ boardId ++ "/sticky_notes") (some "POST") data

/-- `MiroClient.createShape(boardId, data)`. -/
def createShape (http : HttpOracle) (boardId : String) (data : Json) :
    Except String Json × List HttpRequest :=
  fetchApi http ("/boards/" ++ boardId ++ "/shapes") (some "POST") data

/-- `MiroClient.getFrames`: items filtered by `type=frame`, hard-coded
`limit=50`. -/
def getFrames (http : HttpOracle) (boardId : String) :
    Except String Json × List HttpRequest :=
  ((fetchApi http ("/boards/" ++ boardId ++ "/items?type=frame&limit=50") none Json.undefined).1.map
      (fun r => r.getField "data"),
    (fetchApi http ("/boards/" ++ boardId ++ "/items?type=frame&limit=50") none Json.undefined).2)

/-- `MiroClient.getItemsInFrame`: items filtered by `parent_item_id`,
hard-coded `limit=50`. -/
def getItemsInFrame (http : HttpOracle) (boardId frameId : String) :
    Except String Json × List HttpRequest :=
  ((fetchApi http ("/boards/" ++ boardId ++ "/items?parent_item_id=" ++ frameId ++ "&limit=50")
      none Json.undefined).1.map (fun r => r.getField "data"),
    (fetchApi http ("/boards/" ++ boardId ++ "/items?parent_item_id=" ++ frameId ++ "&limit=50")
      none Json.undefined).2)

/-- The request issued by `MiroClient.bulkCreateItems`, which bypasses
`fetchApi` and sends `JSON.stringify(items)` unconditionally
(`JSON.stringify(undefined)` alone produces no body). -/
def bulkRequest (boardId : String) (items : Json) : HttpRequest :=
  { method := "POST"
    url := apiBase ++ "/boards/" ++ boardId ++ "/items/bulk"
    body := match items with
      | Json.undefined => none
      | v => some v }

/-- `bulkCreateItems`'s handling of the response: `body.json()` first, then on
status `>= 400` it throws
`new Error('Miro API error: ' + (result.message || statusCode))` — the status
code appears only when the message is falsy — and otherwise returns
`result.data || []`. -/
def bulkCreateResult (resp : HttpResponse) : Except String Json :=
  match resp.jsonBody with
  | none => Except.error jsonParseError
  | some result =>
    if 400 ≤ resp.statusCode then
      Except.error ("Miro API error: " ++
        jsTemplateStr (jsOr (result.getField "message") (Json.num resp.statusCode)))
    else Except.ok (jsOr (result.getField "data") (Json.arr []))

/-- `MiroClient.bulkCreateItems(boardId, items)`. -/
def bulkCreateItems (http : HttpOracle) (boardId : String) (items : Json) :
    Except String Json × List HttpRequest :=
  (bulkCreateResult (http (bulkRequest boardId items)), [bulkRequest boardId items])

/-- The methods the `MiroClient` class defines (src/src/MiroClient.ts lines
28-102). -/
def miroClientMethods : List String :=
  ["fetchApi", "getBoards", "getBoardItems", "createStickyNote",
    "bulkCreateItems", "getFrames", "getItemsInFrame", "createShape"]

/-- Message of the `TypeError` thrown when the dispatcher invokes a method the
`MiroClient` class does not define (`miroClient.<m> is not a function`). -/
def missingMethodError (m : String) : String :=
  "miroClient." ++ m ++ " is not a function"

/-! ## Tool dispatch (the CallToolRequestSchema handler) -/

/-- `request.params.arguments`: a JavaScript object, as key/value pairs. -/
def JsObj : Type := List (String × Json)

/-- Reading a property of the arguments object during destructuring: absent
keys read as `undefined`. -/
def arg (args : JsObj) (k : String) : Json :=
  (List.lookup k args).getD Json.undefined

/-- The optional `parent` attachment shared by several creation handlers:
`if (parent) \x7b payload.parent = parent; \x7d` appends a `parent` field when
the argument is truthy. -/
def parentField (args : JsObj) : List (String × Json) :=
  if (arg args "parent").truthy then [("parent", arg args "parent")] else []

/-- The outcome of one tool invocation: the content-block texts (every block
the dispatcher builds has `type: "text"`) or the thrown error's message,
together with the HTTP requests issued. -/
def ToolOutcome : Type := Except String (List String) × List HttpRequest

/-- `stickyNoteData` as built by the `create_sticky_note` case: destructuring
defaults `color = "yellow"`, `x = 0`, `y = 0`, plus the optional parent. -/
def stickyNotePayload (args : JsObj) : Json :=
  Json.obj ([("data", Json.obj [("content", arg args "content")]),
    ("style", Json.obj [("fillColor", jsDflt (arg args "color") (Json.str "yellow"))]),
    ("position", Json.obj [("x", jsDflt (arg args "x") (Json.num 0)),
      ("y", jsDflt (arg args "y") (Json.num 0))])] ++ parentField args)

/-- `shapeData` as built by the `create_shape` case: the discriminant is
placed at `data.shape` (the source comment reads
`IMPORTANT: Using 'shape' not 'type'`), `content` is passed through even when
undefined, and `style`/`position`/`geometry` fall back via `||`. -/
def shapePayload (args : JsObj) : Json :=
  Json.obj ([("data", Json.obj [("shape", arg args "shape"), ("content", arg args "content")]),
    ("style", jsOr (arg args "style") (Json.obj [])),
    ("position", jsOr (arg args "position") (Json.obj [("x", Json.num 0), ("y", Json.num 0)])),
    ("geometry", jsOr (arg args "geometry")
      (Json.obj [("width", Json.num 200), ("height", Json.num 200), ("rotation", Json.num 0)]))]
    ++ parentField args)

/-- `connectorData` as built by the `create_connector` case: destructuring
default `shape = "curved"`, `||` fallbacks for style and captions. -/
def connectorPayload (args : JsObj) : Json :=
  Json.obj [("startItem", arg args "startItem"),
    ("endItem", arg args "endItem"),
    ("shape", jsDflt (arg args "shape") (Json.str "curved")),
    ("style", jsOr (arg args "style")
      (Json.obj [("strokeColor", Json.str "#333333"), ("strokeWidth", Json.num 2),
        ("strokeStyle", Json.str "normal"), ("endStrokeCap", Json.str "rounded_stealth")])),
    ("captions", jsOr (arg args "captions") (Json.arr []))]

/-- `frameData` as built by the `create_frame` case: `data.type` and
`data.format` are forced to `"freeform"`/`"custom"` regardless of the
arguments. -/
def framePayload (args : JsObj) : Json :=
  Json.obj [("data", Json.obj [("title", arg args "title"),
      ("type", Json.str "freeform"), ("format", Json.str "custom")]),
    ("style", jsOr (arg args "style") (Json.obj [("fillColor", Json.str "#ffffff")])),
    ("position", jsOr (arg args "position") (Json.obj [("x", Json.num 0), ("y", Json.num 0)])),
    ("geometry", jsOr (arg args "geometry")
      (Json.obj [("width", Json.num 800), ("height", Json.num 600)]))]

/-- `textData` as built by the `create_text` case. -/
def textPayload (args : JsObj) : Json :=
  Json.obj ([("data", Json.obj [("content", arg args "content")]),
    ("style", jsOr (arg args "style") (Json.obj [])),
    ("position", jsOr (arg args "position") (Json.obj [("x", Json.num 0), ("y", Json.num 0)])),
    ("geometry", jsOr (arg args "geometry") (Json.obj [("width", Json.num 200)]))]
    ++ parentField args)

/-- `cardData` as built by the `create_card` case. -/
def cardPayload (args : JsObj) : Json :=
  Json.obj ([("data", Json.obj [("title", arg args "title"),
      ("description", arg args "description"),
      ("assigneeId", arg args "assigneeId"),
      ("dueDate", arg args "dueDate")]),
    ("style", jsOr (arg args "style") (Json.obj [])),
    ("position", jsOr (arg args "position") (Json.obj [("x", Json.num 0), ("y", Json.num 0)])),
    ("geometry", jsOr (arg args "geometry")
      (Json.obj [("width", Json.num 320), ("height", Json.num 176)]))]
    ++ parentField args)

/-- `updateData` as built by the `update_item_position` case (fields added
only when truthy). -/
def updateItemPositionPayload (args : JsObj) : Json :=
  Json.obj ((if (arg args "position").truthy then [("position", arg args "position")] else [])
    ++ parentField args)

/-- `updateData` as built by the `update_sticky_note` case. -/
def updateStickyNotePayload (args : JsObj) : Json :=
  Json.obj ((if (arg args "content").truthy
      then [("data", Json.obj [("content", arg args "content")])] else [])
    ++ (if (arg args "color").truthy
      then [("style", Json.obj [("fillColor", arg args "color")])] else []))

/-- `updateData` as built by the `update_connector` case. -/
def updateConnectorPayload (args : JsObj) : Json :=
  Json.obj ((if (arg args "startItem").truthy then [("startItem", arg args "startItem")] else [])
    ++ (if (arg args "endItem").truthy then [("endItem", arg args "endItem")] else [])
    ++ (if (arg args "style").truthy then [("style", arg args "style")] else []))

/-! ## bulk_delete_items -/

/-- The behaviour of `miroClient.deleteItem` as invoked inside the
`bulk_delete_items` loop: the class defines no such method, so each call
throws a `TypeError` (issuing no HTTP request) which the loop's `try/catch`
records. -/
def miroDeleteItem : Json → Except String Unit :=
  fun _ => Except.error (missingMethodError "deleteItem")

/-- The `for (const itemId of itemIds)` loop of the `bulk_delete_items` case,
parametrised by what `miroClient.deleteItem(boardId, itemId)` does.  Returns
the ids in the order they were attempted, the `results` accumulator (ids whose
delete returned) and the `errors` accumulator (the
`\x7b itemId, error: error.message \x7d` records), both in push order. -/
def bulkDeleteRun (del : Json → Except String Unit) :
    List Json → List Json × List Json × List Json
  | [] => ([], [], [])
  | itemId :: rest =>
    let r := bulkDeleteRun del rest
    match del itemId with
    | Except.ok _ => (itemId :: r.1, itemId :: r.2.1, r.2.2)
    | Except.error msg =>
      (itemId :: r.1, r.2.1, Json.obj [("itemId", itemId), ("error", Json.str msg)] :: r.2.2)

/-- The single content block reported by `bulk_delete_items`. -/
def bulkDeleteContent (results errors : List Json) : String :=
  "Bulk delete completed. Deleted: " ++ toString results.length ++
    " items. Errors: " ++ toString errors.length ++
    (if 0 < errors.length then "\nErrors: " ++ stringify2 (Json.arr errors) else "")

/-! ## The tool handlers

Each handler takes the transport oracle and the arguments object and yields
the invocation outcome.  Client methods receive the board id already
stringified (`jsTemplateStr`), matching the template interpolation
`/boards/$\x7bboardId\x7d/...` performed inside the client.  Handlers whose
client method is not defined by the `MiroClient` class fail with the
corresponding `TypeError` before any request can be issued; where the source
builds a payload before that call, the handler still evaluates the payload
builder, mirroring the construction preceding the throw. -/

/-- `list_boards`: content mapping of `getBoards`' result (a non-array result
would make `boards.map` throw). -/
def listBoardsContent : Except String Json → Except String (List String)
  | Except.error e => Except.error e
  | Except.ok (Json.arr bs) =>
    Except.ok ("Here are the available Miro boards:" ::
      bs.map (fun b => "Board ID: " ++ jsTemplateStr (b.getField "id") ++
        ", Name: " ++ jsTemplateStr (b.getField "name")))
  | Except.ok _ => Except.error "boards.map is not a function"

def handleListBoards (http : HttpOracle) (_args : JsObj) : ToolOutcome :=
  (listBoardsContent (getBoards http).1, (getBoards http).2)

/-- `get_all_items` calls `miroClient.getItems`, which does not exist. -/
def handleGetAllItems (_http : HttpOracle) (_args : JsObj) : ToolOutcome :=
  (Except.error (missingMethodError "getItems"), [])

/-- `get_specific_item` calls `miroClient.getItem`, which does not exist. -/
def handleGetSpecificItem (_http : HttpOracle) (_args : JsObj) : ToolOutcome :=
  (Except.error (missingMethodError "getItem"), [])

/-- `update_item_position` builds `updateData`, then calls
`miroClient.updateItemPositionOrParent`, which does not exist. -/
def handleUpdateItemPosition (_http : HttpOracle) (args : JsObj) : ToolOutcome :=
  let _updateData := updateItemPositionPayload args
  (Except.error (missingMethodError "updateItemPositionOrParent"), [])

/-- `delete_item` calls `miroClient.deleteItem`, which does not exist. -/
def handleDeleteItem (_http : HttpOracle) (_args : JsObj) : ToolOutcome :=
  (Except.error (missingMethodError "deleteItem"), [])

/-- `bulk_delete_items`: iterates the ids sequentially, each attempt
independent, failures recorded without stopping the loop.  A non-array
`itemIds` makes `for...of` throw (iteration of a string argument over its
characters is not modelled; the schema declares an array). -/
def handleBulkDeleteItems (_http : HttpOracle) (args : JsObj) : ToolOutcome :=
  match arg args "itemIds" with
  | Json.arr itemIds =>
    let run := bulkDeleteRun miroDeleteItem itemIds
    (Except.ok [bulkDeleteContent run.2.1 run.2.2], [])
  | _ => (Except.error "itemIds is not iterable", [])

def handleCreateStickyNote (http : HttpOracle) (args : JsObj) : ToolOutcome :=
  ((createStickyNote http (jsTemplateStr (arg args "boardId")) (stickyNotePayload args)).1.map
      (fun stickyNote => ["Created sticky note " ++ jsTemplateStr (stickyNote.getField "id") ++
        " on board " ++ jsTemplateStr (arg args "boardId")]),
    (createStickyNote http (jsTemplateStr (arg args "boardId")) (stickyNotePayload args)).2)

/-- `get_sticky_note` calls `miroClient.getStickyNote`, which does not
exist. -/
def handleGetStickyNote (_http : HttpOracle) (_args : JsObj) : ToolOutcome :=
  (Except.error (missingMethodError "getStickyNote"), [])

/-- `update_sticky_note` builds `updateData`, then calls
`miroClient.updateStickyNote`, which does not exist. -/
def handleUpdateStickyNote (_http : HttpOracle) (args : JsObj) : ToolOutcome :=
  let _updateData := updateStickyNotePayload args
  (Except.error (missingMethodError "updateStickyNote"), [])

/-- `delete_sticky_note` calls `miroClient.deleteStickyNote`, which does not
exist. -/
def handleDeleteStickyNote (_http : HttpOracle) (_args : JsObj) : ToolOutcome :=
  (Except.error (missingMethodError "deleteStickyNote"), [])

def handleCreateShape (http : HttpOracle) (args : JsObj) : ToolOutcome :=
  ((createShape http (jsTemplateStr (arg args "boardId")) (shapePayload args)).1.map
      (fun shapeItem => ["Created " ++ jsTemplateStr (arg args "shape") ++
        " shape with ID " ++ jsTemplateStr (shapeItem.getField "id") ++
        " on board " ++ jsTemplateStr (arg args "boardId")]),
    (createShape http (jsTemplateStr (arg args "boardId")) (shapePayload args)).2)

/-- `create_connector` builds `connectorData`, then calls
`miroClient.createConnector`, which does not exist. -/
def handleCreateConnector (_http : HttpOracle) (args : JsObj) : ToolOutcome :=
  let _connectorData := connectorPayload args
  (Except.error (missingMethodError "createConnector"), [])

/-- `get_connectors` calls `miroClient.getConnectors`, which does not
exist. -/
def handleGetConnectors (_http : HttpOracle) (_args : JsObj) : ToolOutcome :=
  (Except.error (missingMethodError "getConnectors"), [])

/-- `get_connector` calls `miroClient.getConnector`, which does not exist. -/
def handleGetConnector (_http : HttpOracle) (_args : JsObj) : ToolOutcome :=
  (Except.error (missingMethodError "getConnector"), [])

/-- `update_connector` builds `updateData`, then calls
`miroClient.updateConnector`, which does not exist. -/
def handleUpdateConnector (_http : HttpOracle) (args : JsObj) : ToolOutcome :=
  let _updateData := updateConnectorPayload args
  (Except.error (missingMethodError "updateConnector"), [])

/-- `delete_connector` calls `miroClient.deleteConnector`, which does not
exist. -/
def handleDeleteConnector (_http : HttpOracle) (_args : JsObj) : ToolOutcome :=
  (Except.error (missingMethodError "deleteConnector"), [])

/-- `create_frame` builds `frameData`, then calls `miroClient.createFrame`,
which does not exist. -/
def handleCreateFrame (_http : HttpOracle) (args : JsObj) : ToolOutcome :=
  let _frameData := framePayload args
  (Except.error (missingMethodError "createFrame"), [])

def handleGetFrames (http : HttpOracle) (args : JsObj) : ToolOutcome :=
  ((getFrames http (jsTemplateStr (arg args "boardId"))).1.map
      (fun frames => [stringify2 frames]),
    (getFrames http (jsTemplateStr (arg args "boardId"))).2)

def handleGetItemsInFrame (http : HttpOracle) (args : JsObj) : ToolOutcome :=
  ((getItemsInFrame http (jsTemplateStr (arg args "boardId"))
      (jsTemplateStr (arg args "frameId"))).1.map (fun items => [stringify2 items]),
    (getItemsInFrame http (jsTemplateStr (arg args "boardId"))
      (jsTemplateStr (arg args "frameId"))).2)

/-- `create_text` builds `textData`, then calls `miroClient.createText`,
which does not exist. -/
def handleCreateText (_http : HttpOracle) (args : JsObj) : ToolOutcome :=
  let _textData := textPayload args
  (Except.error (missingMethodError "createText"), [])

/-- `create_card` builds `cardData`, then calls `miroClient.createCard`,
which does not exist. -/
def handleCreateCard (_http : HttpOracle) (args : JsObj) : ToolOutcome :=
  let _cardData := cardPayload args
  (Except.error (missingMethodError "createCard"), [])

def handleBulkCreateItems (http : HttpOracle) (args : JsObj) : ToolOutcome :=
  ((bulkCreateItems http (jsTemplateStr (arg args "boardId")) (arg args "items")).1.map
      (fun created => ["Created " ++ jsTemplateStr created.jsLength ++
        " items on board " ++ jsTemplateStr (arg args "boardId")]),
    (bulkCreateItems http (jsTemplateStr (arg args "boardId")) (arg args "items")).2)

/-- The tool names handled by the `switch` in the `CallToolRequestSchema`
handler, in source order. -/
def registeredToolNames : List String :=
  ["list_boards", "get_all_items", "get_specific_item", "update_item_position",
    "delete_item", "bulk_delete_items", "create_sticky_note", "get_sticky_note",
    "update_sticky_note", "delete_sticky_note", "create_shape", "create_connector",
    "get_connectors", "get_connector", "update_connector", "delete_connector",
    "create_frame", "get_frames", "get_items_in_frame", "create_text",
    "create_card", "bulk_create_items"]

/-- The first `MiroClient` method each tool case invokes, from the dispatcher
source. -/
def dispatchClientMethod : String → Option String
  | "list_boards" => some "getBoards"
  | "get_all_items" => some "getItems"
  | "get_specific_item" => some "getItem"
  | "update_item_position" => some "updateItemPositionOrParent"
  | "delete_item" => some "deleteItem"
  | "bulk_delete_items" => some "deleteItem"
  | "create_sticky_note" => some "createStickyNote"
  | "get_sticky_note" => some "getStickyNote"
  | "update_sticky_note" => some "updateStickyNote"
  | "delete_sticky_note" => some "deleteStickyNote"
  | "create_shape" => some "createShape"
  | "create_connector" => some "createConnector"
  | "get_connectors" => some "getConnectors"
  | "get_connector" => some "getConnector"
  | "update_connector" => some "updateConnector"
  | "delete_connector" => some "deleteConnector"
  | "create_frame" => some "createFrame"
  | "get_frames" => some "getFrames"
  | "get_items_in_frame" => some "getItemsInFrame"
  | "create_text" => some "createText"
  | "create_card" => some "createCard"
  | "bulk_create_items" => some "bulkCreateItems"
  | _ => none

/-- The `CallToolRequestSchema` handler's `switch` over
`request.params.name`; the default case throws `new Error("Unknown tool")`
without touching the network. -/
def callTool (http : HttpOracle) (name : String) (args : JsObj) : ToolOutcome :=
  if name = "list_boards" then handleListBoards http args
  else if name = "get_all_items" then handleGetAllItems http args
  else if name = "get_specific_item" then handleGetSpecificItem http args
  else if name = "update_item_position" then handleUpdateItemPosition http args
  else if name = "delete_item" then handleDeleteItem http args
  else if name = "bulk_delete_items" then handleBulkDeleteItems http args
  else if name = "create_sticky_note" then handleCreateStickyNote http args
  else if name = "get_sticky_note" then handleGetStickyNote http args
  else if name = "update_sticky_note" then handleUpdateStickyNote http args
  else if name = "delete_sticky_note" then handleDeleteStickyNote http args
  else if name = "create_shape" then handleCreateShape http args
  else if name = "create_connector" then handleCreateConnector http args
  else if name = "get_connectors" then handleGetConnectors http args
  else if name = "get_connector" then handleGetConnector http args
  else if name = "update_connector" then handleUpdateConnector http args
  else if name = "delete_connector" then handleDeleteConnector http args
  else if name = "create_frame" then handleCreateFrame http args
  else if name = "get_frames" then handleGetFrames http args
  else if name = "get_items_in_frame" then handleGetItemsInFrame http args
  else if name = "create_text" then handleCreateText http args
  else if name = "create_card" then handleCreateCard http args
  else if name = "bulk_create_items" then handleBulkCreateItems http args
  else (Except.error "Unknown tool", [])

/-! ## Resource read (the ReadResourceRequestSchema handler) -/

/-- `uri.startsWith(p)`, computed over the character lists. -/
def strStartsWith (s p : String) : Bool :=
  List.isPrefixOf p.data s.data

/-- The board id the handler extracts: `new URL(uri).pathname.substring(1)`.
For an identifier of the form `miro://board/<rest>` the WHATWG URL parser
yields scheme `miro`, host `board` and pathname `/<rest-up-to-query-or-hash>`
(13 is the length of the `miro://board/` prefix; percent-encoding of
non-URL-safe characters is not modelled). -/
def extractedBoardId (uri : String) : String :=
  String.mk ((uri.data.drop 13).takeWhile (fun c => c != '?' && c != '#'))

/-- The `ReadResourceRequestSchema` handler: `new URL(request.params.uri)` is
parsed first (a malformed identifier already throws there), then any
identifier not starting with `miro://board/` is rejected — on either path no
request is issued, modelled by the single rejection message — and otherwise
the extracted board's items are fetched and returned as
`JSON.stringify(items, null, 2)`. -/
def readResource (http : HttpOracle) (uri : String) :
    Except String String × List HttpRequest :=
  if strStartsWith uri "miro://board/" then
    ((getBoardItems http (extractedBoardId uri)).1.map (fun items => stringify2 items),
      (getBoardItems http (extractedBoardId uri)).2)
  else
    (Except.error "Invalid Miro resource URI - must start with miro://board/", [])

/-! ## Auxiliary definitions for the theorems -/

/-- Whether the delete oracle fails on a given id. -/
def delFails (del : Json → Except String Unit) (i : Json) : Bool :=
  match del i with
  | Except.ok _ => false
  | Except.error _ => true

/-- The error text recorded for a failing id. -/
def delErrorText (del : Json → Except String Unit) (i : Json) : String :=
  match del i with
  | Except.ok _ => ""
  | Except.error m => m

/-- Whether `needle` occurs as a contiguous run inside a character list. -/
def containsSub (needle : List Char) : List Char → Bool
  | [] => needle.isEmpty
  | c :: rest => List.isPrefixOf needle (c :: rest) || containsSub needle rest

/-- Substring test on strings (used to express that an error message does or
does not carry a given token). -/
def strContains (hay needle : String) : Bool := containsSub needle.data hay.data

/-- A transport whose responses carry no information (used where only the
requests issued matter). -/
def nullOracle : HttpOracle := fun _ =>
  { statusCode := 200, jsonBody := some Json.null }

/-- A transport answering every request with `201` and a fresh sticky-note
object. -/
def stickyOracle : HttpOracle := fun _ =>
  { statusCode := 201, jsonBody := some (Json.obj [("id", Json.str "n1")]) }

/-- A transport answering every request with HTTP 204 and an empty body (on
which `body.json()` rejects). -/
def resp204 : HttpOracle := fun _ => { statusCode := 204, jsonBody := none }

/-- A transport answering every request with HTTP 500 and body
`\x7b"message": "boom"\x7d`. -/
def bulk500 : HttpOracle := fun _ =>
  { statusCode := 500, jsonBody := some (Json.obj [("message", Json.str "boom")]) }

/-- A transport answering every request with HTTP 404 and a body carrying no
`message` field. -/
def resp404 : HttpOracle := fun _ =>
  { statusCode := 404, jsonBody := some (Json.obj [("type", Json.str "error")]) }

/-- A transport answering every request with one item in a `data` wrapper. -/
def itemsOracle : HttpOracle := fun _ =>
  { statusCode := 200,
    jsonBody := some (Json.obj [("data", Json.arr [Json.obj [("id", Json.str "x")]])]) }

/-- A 500 response body carrying a message. -/
def body500 : Json := Json.obj [("message", Json.str "boom")]

/-- A concrete 500 response. -/
def r500 : HttpResponse := { statusCode := 500, jsonBody := some body500 }

/-- A 404 response body carrying no `message` field. -/
def body404 : Json := Json.obj [("type", Json.str "error")]

/-- A concrete 404 response. -/
def r404 : HttpResponse := { statusCode := 404, jsonBody := some body404 }

/-- A concrete success response body. -/
def body200 : Json := Json.obj [("id", Json.str "x")]

/-- A concrete 200 response. -/
def r200 : HttpResponse := { statusCode := 200, jsonBody := some body200 }

/-! ## Helper lemmas -/

theorem lookup_append_of_some {β : Type} (k : String) (l1 l2 : List (String × β)) (v : β)
    (h : List.lookup k l1 = some v) : List.lookup k (l1 ++ l2) = some v := by
  induction l1 with
  | nil => simp [List.lookup] at h
  | cons p rest ih =>
    obtain ⟨k1, v1⟩ := p
    cases hk : (k == k1) <;>
      simp only [List.cons_append, List.lookup, hk] at h ⊢
    · exact ih h
    · exact h

theorem getField_obj_append (l1 l2 : List (String × Json)) (k : String) (v : Json)
    (h : List.lookup k l1 = some v) : (Json.obj (l1 ++ l2)).getField k = v := by
  simp only [Json.getField, lookup_append_of_some k l1 l2 v h, Option.getD_some]

theorem jsTemplateStr_str (s : String) : jsTemplateStr (Json.str s) = s := rfl

theorem shapePayload_data (args : JsObj) :
    (shapePayload args).getField "data" =
      Json.obj [("shape", arg args "shape"), ("content", arg args "content")] := by
  unfold shapePayload
  exact getField_obj_append _ _ _ _ rfl

theorem bulkDeleteRun_attempted (del : Json → Except String Unit) (ids : List Json) :
    (bulkDeleteRun del ids).1 = ids := by
  induction ids with
  | nil => rfl
  | cons i rest ih => cases h : del i <;> simp [bulkDeleteRun, h, ih]

theorem bulkDeleteRun_errors (del : Json → Except String Unit) (ids : List Json) :
    (bulkDeleteRun del ids).2.2 = (ids.filter (delFails del)).map
      (fun i => Json.obj [("itemId", i), ("error", Json.str (delErrorText del i))]) := by
  induction ids with
  | nil => rfl
  | cons i rest ih =>
    cases h : del i <;>
      simp [bulkDeleteRun, h, ih, delFails, delErrorText, List.filter_cons]

theorem bulkDeleteRun_length (del : Json → Except String Unit) (ids : List Json) :
    (bulkDeleteRun del ids).2.1.length + (bulkDeleteRun del ids).2.2.length = ids.length := by
  induction ids with
  | nil => rfl
  | cons i rest ih => cases h : del i <;> simp [bulkDeleteRun, h] <;> omega

/-! ## The claims -/

/-- C1: for every `bulk_delete_items` invocation over `N` ids of which `K`
independent delete attempts fail, every id is attempted exactly once,
strictly sequentially in input order (the attempt trace equals the input
list, so an earlier failure never stops later attempts), and the outcome
holds exactly `N − K` successes and `K` failures carrying each failure's
per-item error text.  Stated over every behaviour `del` of
`miroClient.deleteItem`; the final conjunct shows the dispatcher reporting
that outcome (with the shipped class the method is undefined, so `del` is
`miroDeleteItem` and every attempt fails). -/
theorem bulk_delete_best_effort :
    (∀ (del : Json → Except String Unit) (ids : List Json),
      (bulkDeleteRun del ids).1 = ids ∧
      (bulkDeleteRun del ids).2.1.length =
        ids.length - (ids.filter (delFails del)).length ∧
      (bulkDeleteRun del ids).2.2.length = (ids.filter (delFails del)).length ∧
      (bulkDeleteRun del ids).2.2 = (ids.filter (delFails del)).map
        (fun i => Json.obj [("itemId", i), ("error", Json.str (delErrorText del i))])) ∧
    ∀ (http : HttpOracle) (b : Json) (ids : List Json),
      callTool http "bulk_delete_items" [("boardId", b), ("itemIds", Json.arr ids)] =
        (Except.ok [bulkDeleteContent (bulkDeleteRun miroDeleteItem ids).2.1
          (bulkDeleteRun miroDeleteItem ids).2.2], []) := by
  constructor
  · intro del ids
    have hlen := bulkDeleteRun_length del ids
    have herr := bulkDeleteRun_errors del ids
    have herrlen : (bulkDeleteRun del ids).2.2.length =
        (ids.filter (delFails del)).length := by
      rw [herr, List.length_map]
    exact ⟨bulkDeleteRun_attempted del ids, by omega, herrlen, herr⟩
  · intro http b ids
    rfl

/-- C2: every `create_shape` invocation sends upstream a payload whose
discriminant sits at `data.shape` and whose `data` has no `type` key at all,
and every `create_frame` invocation constructs a payload whose `data` carries
`type = "freeform"` and `format = "custom"` regardless of the caller's
arguments. -/
theorem create_payload_discriminants :
    (∀ (http : HttpOracle) (args : JsObj),
      (callTool http "create_shape" args).2 =
        [{ method := "POST",
           url := apiBase ++ ("/boards/" ++ jsTemplateStr (arg args "boardId") ++ "/shapes"),
           body := some (shapePayload args) }]) ∧
    (∀ args : JsObj,
      ((shapePayload args).getField "data").getField "shape" = arg args "shape" ∧
      ((shapePayload args).getField "data").getField "type" = Json.undefined) ∧
    (∀ args : JsObj,
      ((framePayload args).getField "data").getField "type" = Json.str "freeform" ∧
      ((framePayload args).getField "data").getField "format" = Json.str "custom") := by
  refine ⟨fun http args => rfl, fun args => ?_, fun args => ⟨rfl, rfl⟩⟩
  rw [shapePayload_data]
  exact ⟨rfl, rfl⟩

/-- C3: each of the fifteen listed tools dispatches to a `MiroClient` method
the class does not define, so every invocation fails with the corresponding
`TypeError` — for every argument value and before any network request. -/
theorem undefined_client_operations :
    (dispatchClientMethod "get_specific_item" = some "getItem" ∧
      miroClientMethods.contains "getItem" = false ∧
      ∀ (http : HttpOracle) (args : JsObj), callTool http "get_specific_item" args =
        (Except.error (missingMethodError "getItem"), [])) ∧
    (dispatchClientMethod "update_item_position" = some "updateItemPositionOrParent" ∧
      miroClientMethods.contains "updateItemPositionOrParent" = false ∧
      ∀ (http : HttpOracle) (args : JsObj), callTool http "update_item_position" args =
        (Except.error (missingMethodError "updateItemPositionOrParent"), [])) ∧
    (dispatchClientMethod "delete_item" = some "deleteItem" ∧
      miroClientMethods.contains "deleteItem" = false ∧
      ∀ (http : HttpOracle) (args : JsObj), callTool http "delete_item" args =
        (Except.error (missingMethodError "deleteItem"), [])) ∧
    (dispatchClientMethod "get_sticky_note" = some "getStickyNote" ∧
      miroClientMethods.contains "getStickyNote" = false ∧
      ∀ (http : HttpOracle) (args : JsObj), callTool http "get_sticky_note" args =
        (Except.error (missingMethodError "getStickyNote"), [])) ∧
    (dispatchClientMethod "update_sticky_note" = some "updateStickyNote" ∧
      miroClientMethods.contains "updateStickyNote" = false ∧
      ∀ (http : HttpOracle) (args : JsObj), callTool http "update_sticky_note" args =
        (Except.error (missingMethodError "updateStickyNote"), [])) ∧
    (dispatchClientMethod "delete_sticky_note" = some "deleteStickyNote" ∧
      miroClientMethods.contains "deleteStickyNote" = false ∧
      ∀ (http : HttpOracle) (args : JsObj), callTool http "delete_sticky_note" args =
        (Except.error (missingMethodError "deleteStickyNote"), [])) ∧
    (dispatchClientMethod "create_connector" = some "createConnector" ∧
      miroClientMethods.contains "createConnector" = false ∧
      ∀ (http : HttpOracle) (args : JsObj), callTool http "create_connector" args =
        (Except.error (missingMethodError "createConnector"), [])) ∧
    (dispatchClientMethod "get_connectors" = some "getConnectors" ∧
      miroClientMethods.contains "getConnectors" = false ∧
      ∀ (http : HttpOracle) (args : JsObj), callTool http "get_connectors" args =
        (Except.error (missingMethodError "getConnectors"), [])) ∧
    (dispatchClientMethod "get_connector" = some "getConnector" ∧
      miroClientMethods.contains "getConnector" = false ∧
      ∀ (http : HttpOracle) (args : JsObj), callTool http "get_connector" args =
        (Except.error (missingMethodError "getConnector"), [])) ∧
    (dispatchClientMethod "update_connector" = some "updateConnector" ∧
      miroClientMethods.contains "updateConnector" = false ∧
      ∀ (http : HttpOracle) (args : JsObj), callTool http "update_connector" args =
        (Except.error (missingMethodError "updateConnector"), [])) ∧
    (dispatchClientMethod "delete_connector" = some "deleteConnector" ∧
      miroClientMethods.contains "deleteConnector" = false ∧
      ∀ (http : HttpOracle) (args : JsObj), callTool http "delete_connector" args =
        (Except.error (missingMethodError "deleteConnector"), [])) ∧
    (dispatchClientMethod "create_frame" = some "createFrame" ∧
      miroClientMethods.contains "createFrame" = false ∧
      ∀ (http : HttpOracle) (args : JsObj), callTool http "create_frame" args =
        (Except.error (missingMethodError "createFrame"), [])) ∧
    (dispatchClientMethod "create_text" = some "createText" ∧
      miroClientMethods.contains "createText" = false ∧
      ∀ (http : HttpOracle) (args : JsObj), callTool http "create_text" args =
        (Except.error (missingMethodError "createText"), [])) ∧
    (dispatchClientMethod "create_card" = some "createCard" ∧
      miroClientMethods.contains "createCard" = false ∧
      ∀ (http : HttpOracle) (args : JsObj), callTool http "create_card" args =
        (Except.error (missingMethodError "createCard"), [])) ∧
    (dispatchClientMethod "get_all_items" = some "getItems" ∧
      miroClientMethods.contains "getItems" = false ∧
      ∀ (http : HttpOracle) (args : JsObj), callTool http "get_all_items" args =
        (Except.error (missingMethodError "getItems"), [])) :=
  ⟨⟨rfl, rfl, fun _ _ => rfl⟩, ⟨rfl, rfl, fun _ _ => rfl⟩, ⟨rfl, rfl, fun _ _ => rfl⟩,
    ⟨rfl, rfl, fun _ _ => rfl⟩, ⟨rfl, rfl, fun _ _ => rfl⟩, ⟨rfl, rfl, fun _ _ => rfl⟩,
    ⟨rfl, rfl, fun _ _ => rfl⟩, ⟨rfl, rfl, fun _ _ => rfl⟩, ⟨rfl, rfl, fun _ _ => rfl⟩,
    ⟨rfl, rfl, fun _ _ => rfl⟩, ⟨rfl, rfl, fun _ _ => rfl⟩, ⟨rfl, rfl, fun _ _ => rfl⟩,
    ⟨rfl, rfl, fun _ _ => rfl⟩, ⟨rfl, rfl, fun _ _ => rfl⟩, ⟨rfl, rfl, fun _ _ => rfl⟩⟩

/-- C4 counterexample: a remote call answered with HTTP 204 and the empty
body such a response carries makes `fetchApi` fail with the JSON parse
error — it does not return an empty result. -/
theorem fetchApi_204_fails_cx :
    fetchApi resp204 "/boards/B1/items/i1" (some "DELETE") Json.undefined =
      (Except.error jsonParseError,
        [{ method := "DELETE", url := "https://api.miro.com/v2/boards/B1/items/i1",
           body := none }]) := rfl

/-- C4 (amended): `fetchApi` has no dedicated 204 branch: it always awaits
`body.json()` first, so a 204 response fails with the parse error when its
body is empty, and is treated like any other success status (the parsed body
is returned) when a parseable body is present. -/
theorem fetchApi_no_204_special_case :
    ∀ (http : HttpOracle) (path : String) (method : Option String) (body : Json),
      (http (fetchRequest path method body)).statusCode = 204 →
      ((http (fetchRequest path method body)).jsonBody = none →
        fetchApi http path method body =
          (Except.error jsonParseError, [fetchRequest path method body])) ∧
      ∀ j, (http (fetchRequest path method body)).jsonBody = some j →
        fetchApi http path method body = (Except.ok j, [fetchRequest path method body]) := by
  intro http path method body h204
  constructor
  · intro hnone
    simp [fetchApi, fetchApiResult, hnone]
  · intro j hsome
    simp [fetchApi, fetchApiResult, hsome, h204]

/-- C4 witness: the amended statement applied to the concrete 204
transport. -/
theorem fetchApi_no_204_special_case_witness :
    (resp204 (fetchRequest "/x" none Json.undefined)).statusCode = 204 ∧
    fetchApi resp204 "/x" none Json.undefined =
      (Except.error jsonParseError, [fetchRequest "/x" none Json.undefined]) :=
  ⟨rfl, (fetchApi_no_204_special_case resp204 "/x" none Json.undefined rfl).1 rfl⟩

/-- C5 counterexample: `bulkCreateItems` is a client operation that, on a
500 response carrying the message `boom`, fails with
`Miro API error: boom` — an error that does not carry the status code. -/
theorem bulk_create_error_lacks_status_cx :
    bulkCreateItems bulk500 "B1" (Json.arr []) =
      (Except.error "Miro API error: boom",
        [{ method := "POST", url := "https://api.miro.com/v2/boards/B1/items/bulk",
           body := some (Json.arr []) }]) ∧
    strContains "Miro API error: boom" "500" = false := ⟨rfl, rfl⟩

/-- C5 (amended): on a status `>= 400`, `fetchApi` fails with an error
carrying both the status code and the service message (with an empty-string
fallback when the message is falsy), while `bulkCreateItems` fails with an
error carrying the message alone when one is present and only falls back to
the status code when the message is falsy; on any success status both return
the decoded body (`result.data || []` for the bulk call). -/
theorem remote_error_reporting :
    (∀ (resp : HttpResponse) (j : Json), 400 ≤ resp.statusCode → resp.jsonBody = some j →
      (j.getField "message").truthy = true →
      fetchApiResult resp = Except.error ("Miro API error: " ++ toString resp.statusCode ++
        " " ++ jsTemplateStr (j.getField "message")) ∧
      bulkCreateResult resp = Except.error ("Miro API error: " ++
        jsTemplateStr (j.getField "message"))) ∧
    (∀ (resp : HttpResponse) (j : Json), 400 ≤ resp.statusCode → resp.jsonBody = some j →
      (j.getField "message").truthy = false →
      fetchApiResult resp = Except.error ("Miro API error: " ++ toString resp.statusCode ++
        " " ++ "") ∧
      bulkCreateResult resp = Except.error ("Miro API error: " ++
        jsTemplateStr (Json.num resp.statusCode))) ∧
    (∀ (resp : HttpResponse) (j : Json), resp.statusCode < 400 → resp.jsonBody = some j →
      fetchApiResult resp = Except.ok j ∧
      bulkCreateResult resp = Except.ok (jsOr (j.getField "data") (Json.arr []))) := by
  refine ⟨fun resp j h400 hbody ht => ?_, fun resp j h400 hbody ht => ?_,
    fun resp j hlt hbody => ?_⟩
  · constructor <;> simp [fetchApiResult, bulkCreateResult, hbody, h400, jsOr, ht]
  · constructor <;>
      simp [fetchApiResult, bulkCreateResult, hbody, h400, jsOr, ht, jsTemplateStr_str]
  · have h400 : ¬ 400 ≤ resp.statusCode := by omega
    constructor <;> simp [fetchApiResult, bulkCreateResult, hbody, h400]

/-- C5 witness: the amended statement applied to concrete 500, 404 and 200
responses. -/
theorem remote_error_reporting_witness :
    fetchApiResult r500 = Except.error "Miro API error: 500 boom" ∧
    bulkCreateResult r500 = Except.error "Miro API error: boom" ∧
    fetchApiResult r404 = Except.error "Miro API error: 404 " ∧
    bulkCreateResult r404 = Except.error "Miro API error: 404" ∧
    fetchApiResult r200 = Except.ok body200 :=
  ⟨(remote_error_reporting.1 r500 body500 (by decide) rfl rfl).1,
    (remote_error_reporting.1 r500 body500 (by decide) rfl rfl).2,
    (remote_error_reporting.2.1 r404 body404 (by decide) rfl rfl).1,
    (remote_error_reporting.2.1 r404 body404 (by decide) rfl rfl).2,
    (remote_error_reporting.2.2 r200 body200 (by decide) rfl).1⟩

/-- C6 counterexample: `create_sticky_note` invoked without the
schema-required `content` argument does not fail with a validation error —
the dispatch succeeds and issues the sticky-note creation request. -/
theorem missing_required_argument_not_validated_cx :
    callTool stickyOracle "create_sticky_note" [("boardId", Json.str "B1")] =
      (Except.ok ["Created sticky note n1 on board B1"],
        [{ method := "POST", url := "https://api.miro.com/v2/boards/B1/sticky_notes",
           body := some (stickyNotePayload [("boardId", Json.str "B1")]) }]) := rfl

/-- C6 (amended): the dispatcher performs no required-argument validation:
a missing required argument is destructured as `undefined` and passed
through, and for a tool whose client method exists the network request is
still issued (here `create_sticky_note` without `content` sends a payload
whose `data.content` is `undefined`); only an unrecognized tool name fails
before dispatch. -/
theorem no_required_argument_validation :
    ∀ (http : HttpOracle) (b : Json),
      (callTool http "create_sticky_note" [("boardId", b)]).2 =
        [{ method := "POST",
           url := apiBase ++ ("/boards/" ++ jsTemplateStr b ++ "/sticky_notes"),
           body := some (stickyNotePayload [("boardId", b)]) }] ∧
      ((stickyNotePayload [("boardId", b)]).getField "data").getField "content" =
        Json.undefined :=
  fun _ _ => ⟨rfl, rfl⟩

/-- C7 counterexample: a `get_all_items` invocation carrying `limit = 7` and
`cursor = "abc"` issues no upstream request at all (the call fails on the
undefined `miroClient.getItems`), so the supplied values are not forwarded as
query parameters of any request. -/
theorem list_params_not_forwarded_cx :
    callTool nullOracle "get_all_items"
      [("boardId", Json.str "B1"), ("limit", Json.num 7), ("cursor", Json.str "abc")] =
      (Except.error "miroClient.getItems is not a function", []) := rfl

/-- C7 (amended): the paginated list tools `get_all_items` and
`get_connectors` always fail before any request because the client methods
they call are undefined, and the list operations the client does define
(`getBoardItems`, `getFrames`, `getItemsInFrame`) hard-code `limit=50` in
the query and carry no cursor parameter, so caller-supplied `limit`/`cursor`
values are never forwarded (and no cursor is ever transformed locally). -/
theorem list_params_not_forwarded :
    (∀ (http : HttpOracle) (args : JsObj), callTool http "get_all_items" args =
      (Except.error (missingMethodError "getItems"), [])) ∧
    (∀ (http : HttpOracle) (args : JsObj), callTool http "get_connectors" args =
      (Except.error (missingMethodError "getConnectors"), [])) ∧
    (∀ (http : HttpOracle) (b : String), (getBoardItems http b).2 =
      [{ method := "GET", url := apiBase ++ ("/boards/" ++ b ++ "/items?limit=50"),
         body := none }]) ∧
    (∀ (http : HttpOracle) (b : String), (getFrames http b).2 =
      [{ method := "GET", url := apiBase ++ ("/boards/" ++ b ++ "/items?type=frame&limit=50"),
         body := none }]) ∧
    (∀ (http : HttpOracle) (b f : String), (getItemsInFrame http b f).2 =
      [{ method := "GET",
         url := apiBase ++ ("/boards/" ++ b ++ "/items?parent_item_id=" ++ f ++ "&limit=50"),
         body := none }]) :=
  ⟨fun _ _ => rfl, fun _ _ => rfl, fun _ _ => rfl, fun _ _ => rfl, fun _ _ _ => rfl⟩

/-- C8: invoking a tool name that is not in the registered switch always
fails with the unknown-tool error, for every argument value, and no network
request is issued. -/
theorem unknown_tool_no_network (name : String) (h : name ∉ registeredToolNames)
    (http : HttpOracle) (args : JsObj) :
    callTool http name args = (Except.error "Unknown tool", []) := by
  simp only [registeredToolNames, List.mem_cons, List.not_mem_nil, or_false, not_or] at h
  obtain ⟨h1, h2, h3, h4, h5, h6, h7, h8, h9, h10, h11,
    h12, h13, h14, h15, h16, h17, h18, h19, h20, h21, h22⟩ := h
  simp [callTool, h1, h2, h3, h4, h5, h6, h7, h8, h9, h10, h11,
    h12, h13, h14, h15, h16, h17, h18, h19, h20, h21, h22]

/-- C8 witness: the unregistered name `frobnicate`. -/
theorem unknown_tool_no_network_witness :
    "frobnicate" ∉ registeredToolNames ∧
    callTool nullOracle "frobnicate" [] = (Except.error "Unknown tool", []) :=
  ⟨by decide, unknown_tool_no_network "frobnicate" (by decide) nullOracle []⟩

/-- C9: a resource read whose identifier does not start with `miro://board/`
fails without any request being issued; an identifier carrying the prefix
has its board id extracted from the URL pathname, exactly one request
fetching that board's item collection is issued, and the result body is the
serialized collection; and for identifiers whose id part contains no query
or fragment delimiter the extracted id is exactly the part after the
prefix. -/
theorem resource_read_scheme_gate :
    (∀ (http : HttpOracle) (uri : String), strStartsWith uri "miro://board/" = false →
      readResource http uri =
        (Except.error "Invalid Miro resource URI - must start with miro://board/", [])) ∧
    (∀ (http : HttpOracle) (uri : String), strStartsWith uri "miro://board/" = true →
      readResource http uri =
        ((getBoardItems http (extractedBoardId uri)).1.map (fun items => stringify2 items),
          [{ method := "GET",
             url := apiBase ++ ("/boards/" ++ extractedBoardId uri ++ "/items?limit=50"),
             body := none }])) ∧
    (∀ id : String, (∀ c ∈ id.data, ¬c = '?' ∧ ¬c = '#') →
      extractedBoardId ("miro://board/" ++ id) = id) := by
  refine ⟨fun http uri h => ?_, fun http uri h => ?_, fun id hc => ?_⟩
  · simp [readResource, h]
  · simp only [readResource, h, if_true]
    rfl
  · unfold extractedBoardId
    have hdata : ("miro://board/" ++ id).data = "miro://board/".data ++ id.data :=
      String.data_append "miro://board/" id
    have hlen : "miro://board/".data.length = 13 := rfl
    have hall : ∀ c ∈ id.data, (c != '?' && c != '#') = true := by
      intro c hcmem
      obtain ⟨hq, hh⟩ := hc c hcmem
      simp [hq, hh]
    rw [hdata, List.drop_left' hlen, List.takeWhile_eq_self_iff.mpr hall]

/-- C9 witness: the gate applied to a non-prefixed and a prefixed concrete
identifier. -/
theorem resource_read_scheme_gate_witness :
    strStartsWith "https://example.com/b" "miro://board/" = false ∧
    readResource nullOracle "https://example.com/b" =
      (Except.error "Invalid Miro resource URI - must start with miro://board/", []) ∧
    strStartsWith "miro://board/abc" "miro://board/" = true ∧
    readResource itemsOracle "miro://board/abc" =
      (Except.ok (stringify2 (Json.arr [Json.obj [("id", Json.str "x")]])),
        [{ method := "GET", url := "https://api.miro.com/v2/boards/abc/items?limit=50",
           body := none }]) ∧
    extractedBoardId "miro://board/abc" = "abc" :=
  ⟨rfl, resource_read_scheme_gate.1 nullOracle "https://example.com/b" rfl,
    rfl, resource_read_scheme_gate.2.1 itemsOracle "miro://board/abc" rfl,
    resource_read_scheme_gate.2.2 "abc" (by decide)⟩

/-- C10: omitted optional fields receive the documented defaults exactly —
`create_sticky_note` with only `boardId`/`content` yields the payload with
yellow fill and origin position; `create_shape` defaults geometry to
200 by 200 with rotation 0 and position to the origin; `create_frame`
defaults geometry to 800 by 600; `create_card` defaults geometry to
320 by 176; `create_connector` defaults the line shape to `curved`. -/
theorem documented_defaults :
    (∀ b c : Json, stickyNotePayload [("boardId", b), ("content", c)] =
      Json.obj [("data", Json.obj [("content", c)]),
        ("style", Json.obj [("fillColor", Json.str "yellow")]),
        ("position", Json.obj [("x", Json.num 0), ("y", Json.num 0)])]) ∧
    (∀ b s : Json,
      (shapePayload [("boardId", b), ("shape", s)]).getField "geometry" =
        Json.obj [("width", Json.num 200), ("height", Json.num 200),
          ("rotation", Json.num 0)] ∧
      (shapePayload [("boardId", b), ("shape", s)]).getField "position" =
        Json.obj [("x", Json.num 0), ("y", Json.num 0)]) ∧
    (∀ b t : Json, (framePayload [("boardId", b), ("title", t)]).getField "geometry" =
      Json.obj [("width", Json.num 800), ("height", Json.num 600)]) ∧
    (∀ b t : Json, (cardPayload [("boardId", b), ("title", t)]).getField "geometry" =
      Json.obj [("width", Json.num 320), ("height", Json.num 176)]) ∧
    (∀ b si ei : Json,
      (connectorPayload [("boardId", b), ("startItem", si), ("endItem", ei)]).getField
        "shape" = Json.str "curved") :=
  ⟨fun _ _ => rfl, fun _ _ => ⟨rfl, rfl⟩, fun _ _ => rfl, fun _ _ => rfl,
    fun _ _ _ => rfl⟩

end McpMiro
